import Mathlib

/-!
Shallow embedding of `src/entities/pricing-rule.ts` (the `PricingRule`
entity of the pricing core) and verification of the specification's
claims about it.

Modelling conventions:
* A JavaScript `number` stored in a rule definition field is modelled as a
  rational (`ℚ`); a definition field is `Option JsVal`, where `none` is an
  absent field (`undefined`) and `JsVal.nonNum` is a present value whose
  `typeof` is not `"number"`.
* Arithmetic inside `apply` is modelled on `JsNum := Option ℚ`, where
  `none` stands for a non-finite result (`NaN` or `±Infinity`).  The only
  source of non-finite values in this code is division or remainder by
  zero; a remainder by zero is `NaN` and it poisons every subsequent
  addition and multiplication, so collapsing `NaN` and `±Infinity` into
  one `none` value is observationally faithful for these functions.
* `x!` (the TypeScript non-null assertion) is modelled by `asJsNum`,
  which yields the numeric value when the field holds a number and the
  non-finite value `none` otherwise, matching the fact that arithmetic on
  `undefined` yields `NaN` at runtime.
* The throwing constructor is modelled as the fallible `mkPricingRule`
  returning `Except String PricingRule`, with the exact message strings
  of the source.
-/

namespace PricingBff

/-- A JavaScript runtime value as it may appear in a rule-definition
field: a number (modelled as a rational) or a value of non-numeric type
(tagged with a descriptive string). -/
inductive JsVal where
  | num : ℚ → JsVal
  | nonNum : String → JsVal
deriving DecidableEq

/-- A JavaScript number during the `apply` computation: `none` models a
non-finite value (`NaN` or `±Infinity`). -/
abbrev JsNum := Option ℚ

/-- JS addition: finite + finite is exact, anything non-finite poisons. -/
def jsAdd (a b : JsNum) : JsNum :=
  match a, b with
  | some x, some y => some (x + y)
  | _, _ => none

/-- JS multiplication: finite × finite is exact, anything non-finite
poisons (exact for this code: a non-finite operand here is always the
`NaN` produced by a zero divisor, and `NaN × y = NaN`). -/
def jsMul (a b : JsNum) : JsNum :=
  match a, b with
  | some x, some y => some (x * y)
  | _, _ => none

/-- JS division: division by zero gives a non-finite result. -/
def jsDiv (a b : JsNum) : JsNum :=
  match a, b with
  | some x, some y => if y = 0 then none else some (x / y)
  | _, _ => none

/-- Truncation toward zero, as used by the JS `%` operator. -/
def jsTrunc (x : ℚ) : ℤ :=
  if 0 ≤ x then ⌊x⌋ else -⌊-x⌋

/-- JS remainder `a % b`: `a - b * trunc (a / b)`; a zero divisor gives
`NaN`. -/
def jsRem (a b : JsNum) : JsNum :=
  match a, b with
  | some x, some y => if y = 0 then none else some (x - y * (jsTrunc (x / y) : ℚ))
  | _, _ => none

/-- `Math.floor`, propagating non-finite values. -/
def jsFloor (a : JsNum) : JsNum :=
  match a with
  | some x => some ((⌊x⌋ : ℤ) : ℚ)
  | none => none

/-- JS strict greater-than: any comparison with `NaN` is `false`. -/
def jsGt (a b : JsNum) : Bool :=
  match a, b with
  | some x, some y => decide (y < x)
  | _, _ => false

/-- The `RuleDefinition` interface: three optional fields. -/
structure RuleDefinition where
  quantity : Option JsVal := none
  discountedQuantity : Option JsVal := none
  bulkPrice : Option JsVal := none
deriving DecidableEq

/-- The runtime check `typeof v === "number"` on an optional field. -/
def isNumber : Option JsVal → Bool
  | some (JsVal.num _) => true
  | _ => false

/-- Reading a definition field under a non-null assertion (`field!`) in a
numeric context: a number yields itself; an absent or non-numeric value
yields a non-finite number (arithmetic on `undefined` is `NaN`). -/
def asJsNum : Option JsVal → JsNum
  | some (JsVal.num x) => some x
  | _ => none

/-- The `PricingRule` entity: `skuId`, `type` (kept as a raw string so
that the unknown-type validation branch is representable), and the
definition record. -/
structure PricingRule where
  skuId : String
  type : String
  definition : RuleDefinition
deriving DecidableEq

/-- `validateDefinition`: the construction-time validation switch,
with the exact error messages of the source. -/
def validateDefinition (skuId ty : String) (d : RuleDefinition) : Except String Unit :=
  if ty = "discount" then
    if !(isNumber d.quantity) || !(isNumber d.discountedQuantity) then
      Except.error ("Invalid definition for discount rule on SKU " ++ skuId ++
        ". Expected \"quantity\" and \"discountedQuantity\" to be numbers.")
    else Except.ok ()
  else if ty = "reducedPrice" then
    if !(isNumber d.quantity) || !(isNumber d.bulkPrice) then
      Except.error ("Invalid definition for reduced price rule on SKU " ++ skuId ++
        ". Expected \"quantity\" and \"bulkPrice\" to be numbers.")
    else Except.ok ()
  else if ty = "both" then
    if !(isNumber d.quantity) || !(isNumber d.discountedQuantity) || !(isNumber d.bulkPrice) then
      Except.error ("Invalid definition for combined rule on SKU " ++ skuId ++
        ". Expected \"quantity\", \"discountedQuantity\", and \"bulkPrice\" to be numbers.")
    else Except.ok ()
  else
    Except.error ("Unknown rule type: " ++ ty)

/-- The constructor: stores the three attributes after running
`validateDefinition`; a thrown validation error becomes `Except.error`. -/
def mkPricingRule (skuId ty : String) (d : RuleDefinition) : Except String PricingRule :=
  match validateDefinition skuId ty d with
  | Except.error e => Except.error e
  | Except.ok _ => Except.ok { skuId := skuId, type := ty, definition := d }

/-- `applyDiscount`: multi-buy accounting,
`(floor(count/quantity) * discountedQuantity + count % quantity) * price`. -/
def applyDiscount (d : RuleDefinition) (count price : JsNum) : JsNum :=
  let discountSets := jsFloor (jsDiv count (asJsNum d.quantity))
  let remainingItems := jsRem count (asJsNum d.quantity)
  jsMul (jsAdd (jsMul discountSets (asJsNum d.discountedQuantity)) remainingItems) price

/-- `applyReducedPrice`: all units at `bulkPrice` once `count` strictly
exceeds `quantity`, else all at `price`. -/
def applyReducedPrice (d : RuleDefinition) (count price : JsNum) : JsNum :=
  if jsGt count (asJsNum d.quantity) then
    jsMul count (asJsNum d.bulkPrice)
  else
    jsMul count price

/-- `applyBoth`: multi-buy accounting first, then the bulk-price test on
the billed (post-discount) unit count. -/
def applyBoth (d : RuleDefinition) (count price : JsNum) : JsNum :=
  let discountSets := jsFloor (jsDiv count (asJsNum d.quantity))
  let discountedItemsCount := jsMul discountSets (asJsNum d.discountedQuantity)
  let remainingItems := jsRem count (asJsNum d.quantity)
  let totalDiscountedCount := jsAdd discountedItemsCount remainingItems
  if jsGt totalDiscountedCount (asJsNum d.quantity) then
    jsMul totalDiscountedCount (asJsNum d.bulkPrice)
  else
    jsMul (jsAdd discountedItemsCount remainingItems) price

/-- The public `apply(count, price)` method: dispatch on the rule type,
with the defensive `count * price` fallback for an unknown type. -/
def PricingRule.apply (r : PricingRule) (count price : JsNum) : JsNum :=
  if r.type = "discount" then applyDiscount r.definition count price
  else if r.type = "reducedPrice" then applyReducedPrice r.definition count price
  else if r.type = "both" then applyBoth r.definition count price
  else jsMul count price

/-- Reading a definition field under a non-null assertion, treated as a
checked assertion: an absent or non-numeric field is an explicit error
rather than silent `NaN` arithmetic.  Used to express that `apply` never
needs the silent fallback on a validated instance. -/
def requireNum (v : Option JsVal) : Except String ℚ :=
  match v with
  | some (JsVal.num x) => Except.ok x
  | _ => Except.error "field access on a missing or non-numeric definition field"

/-- `applyDiscount` with every field dereference checked. -/
def applyDiscountChecked (d : RuleDefinition) (count price : JsNum) : Except String JsNum :=
  match requireNum d.quantity with
  | Except.error e => Except.error e
  | Except.ok q =>
    match requireNum d.discountedQuantity with
    | Except.error e => Except.error e
    | Except.ok dq =>
      let discountSets := jsFloor (jsDiv count (some q))
      let remainingItems := jsRem count (some q)
      Except.ok (jsMul (jsAdd (jsMul discountSets (some dq)) remainingItems) price)

/-- `applyReducedPrice` with every field dereference checked, in the
branch where the source dereferences it. -/
def applyReducedPriceChecked (d : RuleDefinition) (count price : JsNum) :
    Except String JsNum :=
  match requireNum d.quantity with
  | Except.error e => Except.error e
  | Except.ok q =>
    if jsGt count (some q) then
      match requireNum d.bulkPrice with
      | Except.error e => Except.error e
      | Except.ok b => Except.ok (jsMul count (some b))
    else
      Except.ok (jsMul count price)

/-- `applyBoth` with every field dereference checked, in the branch where
the source dereferences it. -/
def applyBothChecked (d : RuleDefinition) (count price : JsNum) : Except String JsNum :=
  match requireNum d.quantity with
  | Except.error e => Except.error e
  | Except.ok q =>
    match requireNum d.discountedQuantity with
    | Except.error e => Except.error e
    | Except.ok dq =>
      let discountSets := jsFloor (jsDiv count (some q))
      let discountedItemsCount := jsMul discountSets (some dq)
      let remainingItems := jsRem count (some q)
      let totalDiscountedCount := jsAdd discountedItemsCount remainingItems
      if jsGt totalDiscountedCount (some q) then
        match requireNum d.bulkPrice with
        | Except.error e => Except.error e
        | Except.ok b => Except.ok (jsMul totalDiscountedCount (some b))
      else
        Except.ok (jsMul (jsAdd discountedItemsCount remainingItems) price)

/-- `apply` with checked field dereferences. -/
def applyChecked (r : PricingRule) (count price : JsNum) : Except String JsNum :=
  if r.type = "discount" then applyDiscountChecked r.definition count price
  else if r.type = "reducedPrice" then applyReducedPriceChecked r.definition count price
  else if r.type = "both" then applyBothChecked r.definition count price
  else Except.ok (jsMul count price)

/-- Spec-side formula: the billed unit count of the multi-buy accounting,
`floor(count / quantity) * discountedQuantity + (count mod quantity)`,
read in JS number semantics. -/
def specBilledUnits (q dq : ℚ) (count : JsNum) : JsNum :=
  jsAdd (jsMul (jsFloor (jsDiv count (some q))) (some dq)) (jsRem count (some q))

/-- Spec-side formula for the `both` variant: the billed unit count is
priced at `bulkPrice` when it strictly exceeds `quantity`, else at
`price`. -/
def specBothTotal (q dq b : ℚ) (count price : JsNum) : JsNum :=
  let billed := specBilledUnits q dq count
  if jsGt billed (some q) then jsMul billed (some b) else jsMul billed price

/-- Spec-side predicate: the fields mandatory for a given `type` are all
present and numeric (spec: required-field validity per variant). -/
def requiredFieldsNumeric (ty : String) (d : RuleDefinition) : Bool :=
  if ty = "discount" then isNumber d.quantity && isNumber d.discountedQuantity
  else if ty = "reducedPrice" then isNumber d.quantity && isNumber d.bulkPrice
  else if ty = "both" then
    isNumber d.quantity && isNumber d.discountedQuantity && isNumber d.bulkPrice
  else false

/-! ### Basic inversion lemmas -/

lemma asJsNum_eq_some (v : Option JsVal) (h : isNumber v = true) :
    ∃ x, v = some (JsVal.num x) ∧ asJsNum v = some x := by
  cases v with
  | none => simp [isNumber] at h
  | some w =>
    cases w with
    | num x => exact ⟨x, rfl, rfl⟩
    | nonNum t => simp [isNumber] at h

lemma validate_ok_iff (s ty : String) (d : RuleDefinition) :
    validateDefinition s ty d = Except.ok () ↔ requiredFieldsNumeric ty d = true := by
  unfold validateDefinition requiredFieldsNumeric
  by_cases h1 : ty = "discount"
  · simp only [h1, if_pos rfl]
    cases hq : isNumber d.quantity <;> cases hdq : isNumber d.discountedQuantity <;>
      simp [hq, hdq]
  · by_cases h2 : ty = "reducedPrice"
    · simp only [h1, h2, if_neg, if_pos rfl, reduceCtorEq]
      cases hq : isNumber d.quantity <;> cases hb : isNumber d.bulkPrice <;>
        simp [hq, hb, h1]
    · by_cases h3 : ty = "both"
      · simp only [h1, h2, h3, if_neg, if_pos rfl, reduceCtorEq]
        cases hq : isNumber d.quantity <;> cases hdq : isNumber d.discountedQuantity <;>
          cases hb : isNumber d.bulkPrice <;> simp [hq, hdq, hb, h1, h2]
      · simp [h1, h2, h3]

lemma mk_ok_inv (s ty : String) (d : RuleDefinition) (r : PricingRule)
    (h : mkPricingRule s ty d = Except.ok r) :
    r = ⟨s, ty, d⟩ ∧ validateDefinition s ty d = Except.ok () := by
  unfold mkPricingRule at h
  revert h
  cases hv : validateDefinition s ty d with
  | error e => intro h; exact absurd h (by simp)
  | ok u => intro h; cases u; exact ⟨(Except.ok.inj h).symm, rfl⟩

lemma mk_ok_fields (s ty : String) (d : RuleDefinition) (r : PricingRule)
    (h : mkPricingRule s ty d = Except.ok r) :
    r = ⟨s, ty, d⟩ ∧ requiredFieldsNumeric ty d = true := by
  obtain ⟨hr, hv⟩ := mk_ok_inv s ty d r h
  exact ⟨hr, (validate_ok_iff s ty d).mp hv⟩

lemma jsDivFloor_nat (c n : ℕ) (hn : 0 < n) :
    jsFloor (jsDiv (some (c : ℚ)) (some (n : ℚ))) = some ((c / n : ℕ) : ℚ) := by
  have hn0 : ((n : ℚ)) ≠ 0 := Nat.cast_ne_zero.mpr hn.ne'
  simp only [jsDiv, jsFloor, if_neg hn0]
  have hfl : ⌊(c : ℚ) / (n : ℚ)⌋ = ((c / n : ℕ) : ℤ) := by
    have h1 : ((c : ℤ) : ℚ) = (c : ℚ) := by push_cast; ring
    rw [← h1, Rat.floor_intCast_div_natCast]
    exact (Int.ofNat_div c n).symm
  rw [hfl]
  exact congrArg some (Int.cast_natCast _)

lemma jsRem_nat (c n : ℕ) (hn : 0 < n) :
    jsRem (some (c : ℚ)) (some (n : ℚ)) = some ((c % n : ℕ) : ℚ) := by
  have hn0 : ((n : ℚ)) ≠ 0 := Nat.cast_ne_zero.mpr hn.ne'
  have hnn : (0 : ℚ) ≤ (c : ℚ) / (n : ℚ) := by positivity
  simp only [jsRem, if_neg hn0, jsTrunc, if_pos hnn]
  have hfl : ⌊(c : ℚ) / (n : ℚ)⌋ = ((c / n : ℕ) : ℤ) := by
    have h1 : ((c : ℤ) : ℚ) = (c : ℚ) := by push_cast; ring
    rw [← h1, Rat.floor_intCast_div_natCast]
    exact (Int.ofNat_div c n).symm
  rw [hfl]
  have hmod : c = n * (c / n) + c % n := (Nat.div_add_mod c n).symm
  refine congrArg some ?_
  rw [Int.cast_natCast]
  have hc : (c : ℚ) = (n : ℚ) * ((c / n : ℕ) : ℚ) + ((c % n : ℕ) : ℚ) := by
    exact_mod_cast congrArg (fun m : ℕ => (m : ℚ)) hmod
  linarith

lemma mk_exists_ok_iff (s ty : String) (d : RuleDefinition) :
    (∃ r, mkPricingRule s ty d = Except.ok r) ↔
      validateDefinition s ty d = Except.ok () := by
  constructor
  · rintro ⟨r, hr⟩; exact (mk_ok_inv s ty d r hr).2
  · intro hv
    refine ⟨⟨s, ty, d⟩, ?_⟩
    unfold mkPricingRule
    rw [hv]

lemma mk_error_inv (s ty : String) (d : RuleDefinition) (e : String)
    (h : mkPricingRule s ty d = Except.error e) :
    validateDefinition s ty d = Except.error e := by
  unfold mkPricingRule at h
  revert h
  cases hv : validateDefinition s ty d with
  | error e2 => intro h; exact (Except.error.inj h) ▸ rfl
  | ok u => intro h; exact absurd h (by simp)

lemma requiredFieldsNumeric_iff (ty : String) (d : RuleDefinition) :
    requiredFieldsNumeric ty d = true ↔
      ((ty = "discount" ∧ isNumber d.quantity = true ∧ isNumber d.discountedQuantity = true) ∨
       (ty = "reducedPrice" ∧ isNumber d.quantity = true ∧ isNumber d.bulkPrice = true) ∨
       (ty = "both" ∧ isNumber d.quantity = true ∧ isNumber d.discountedQuantity = true ∧
          isNumber d.bulkPrice = true)) := by
  unfold requiredFieldsNumeric
  by_cases h1 : ty = "discount"
  · simp [h1]
  · by_cases h2 : ty = "reducedPrice"
    · simp [h1, h2]
    · by_cases h3 : ty = "both"
      · simp [h1, h2, h3, and_assoc]
      · simp [h1, h2, h3]

lemma validate_error_msg (s ty : String) (d : RuleDefinition) (e : String)
    (h : validateDefinition s ty d = Except.error e) :
    (ty = "discount" → e = "Invalid definition for discount rule on SKU " ++ s ++
        ". Expected \"quantity\" and \"discountedQuantity\" to be numbers.") ∧
    (ty = "reducedPrice" → e = "Invalid definition for reduced price rule on SKU " ++ s ++
        ". Expected \"quantity\" and \"bulkPrice\" to be numbers.") ∧
    (ty = "both" → e = "Invalid definition for combined rule on SKU " ++ s ++
        ". Expected \"quantity\", \"discountedQuantity\", and \"bulkPrice\" to be numbers.") ∧
    (ty ≠ "discount" → ty ≠ "reducedPrice" → ty ≠ "both" →
        e = "Unknown rule type: " ++ ty) := by
  unfold validateDefinition at h
  by_cases h1 : ty = "discount"
  · subst h1
    rw [if_pos rfl] at h
    refine ⟨fun _ => ?_, fun hc => absurd hc (by decide), fun hc => absurd hc (by decide),
      fun hc _ _ => absurd rfl hc⟩
    revert h
    by_cases hcond : (!(isNumber d.quantity) || !(isNumber d.discountedQuantity)) = true
    · rw [if_pos hcond]; intro h; exact (Except.error.inj h).symm
    · rw [if_neg hcond]; intro h; exact absurd h (by simp)
  · rw [if_neg h1] at h
    by_cases h2 : ty = "reducedPrice"
    · subst h2
      rw [if_pos rfl] at h
      refine ⟨fun hc => absurd hc (by decide), fun _ => ?_, fun hc => absurd hc (by decide),
        fun _ hc _ => absurd rfl hc⟩
      revert h
      by_cases hcond : (!(isNumber d.quantity) || !(isNumber d.bulkPrice)) = true
      · rw [if_pos hcond]; intro h; exact (Except.error.inj h).symm
      · rw [if_neg hcond]; intro h; exact absurd h (by simp)
    · rw [if_neg h2] at h
      by_cases h3 : ty = "both"
      · subst h3
        rw [if_pos rfl] at h
        refine ⟨fun hc => absurd hc (by decide), fun hc => absurd hc (by decide), fun _ => ?_,
          fun _ _ hc => absurd rfl hc⟩
        revert h
        by_cases hcond : (!(isNumber d.quantity) || !(isNumber d.discountedQuantity) ||
            !(isNumber d.bulkPrice)) = true
        · rw [if_pos hcond]; intro h; exact (Except.error.inj h).symm
        · rw [if_neg hcond]; intro h; exact absurd h (by simp)
      · rw [if_neg h3] at h
        exact ⟨fun hc => absurd hc h1, fun hc => absurd hc h2, fun hc => absurd hc h3,
          fun _ _ _ => (Except.error.inj h).symm⟩

/-! ### Claim theorems -/

/-- C1: for every constructed rule of type `both` and every non-negative
integer `count` and non-negative `price`, `apply count price` first
computes `billedUnits = floor(count/quantity) * discountedQuantity +
(count mod quantity)`, then returns `billedUnits * bulkPrice` when
`billedUnits > quantity` (the billed, post-discount count — not the raw
count — is compared against the threshold) and `billedUnits * price`
otherwise. -/
theorem both_apply_spec (s : String) (d : RuleDefinition) (r : PricingRule)
    (q dq b : ℚ)
    (hmk : mkPricingRule s "both" d = Except.ok r)
    (hq : d.quantity = some (JsVal.num q))
    (hdq : d.discountedQuantity = some (JsVal.num dq))
    (hb : d.bulkPrice = some (JsVal.num b))
    (count : ℕ) (price : ℚ) (hp : 0 ≤ price) :
    PricingRule.apply r (some (count : ℚ)) (some price) =
      specBothTotal q dq b (some (count : ℚ)) (some price) ∧
    ∀ u, specBilledUnits q dq (some (count : ℚ)) = some u →
      (q < u → PricingRule.apply r (some (count : ℚ)) (some price) = some (u * b)) ∧
      (u ≤ q → PricingRule.apply r (some (count : ℚ)) (some price) = some (u * price)) := by
  obtain ⟨hr, hv⟩ := mk_ok_inv s "both" d r hmk
  subst hr
  have happ : PricingRule.apply ⟨s, "both", d⟩ (some (count : ℚ)) (some price)
      = specBothTotal q dq b (some (count : ℚ)) (some price) := by
    simp [PricingRule.apply, applyBoth, specBothTotal, specBilledUnits,
      hq, hdq, hb, asJsNum]
  refine ⟨happ, fun u hu => ?_⟩
  rw [happ]
  unfold specBothTotal
  rw [hu]
  constructor
  · intro hlt
    simp [jsGt, jsMul, hlt]
  · intro hle
    simp [jsGt, jsMul, not_lt.mpr hle]

/-- Witness for C1 at the spec's own example: quantity 3,
discountedQuantity 2, bulkPrice 5, count 10, price 10. -/
theorem both_apply_spec_witness :
    PricingRule.apply
        ⟨"A", "both", ⟨some (JsVal.num 3), some (JsVal.num 2), some (JsVal.num 5)⟩⟩
        (some ((10 : ℕ) : ℚ)) (some 10) =
      specBothTotal 3 2 5 (some ((10 : ℕ) : ℚ)) (some 10) :=
  (both_apply_spec "A" ⟨some (JsVal.num 3), some (JsVal.num 2), some (JsVal.num 5)⟩
    ⟨"A", "both", ⟨some (JsVal.num 3), some (JsVal.num 2), some (JsVal.num 5)⟩⟩
    3 2 5 rfl rfl rfl rfl 10 10 (by norm_num)).1

/-- C2: for every constructed rule of type `discount` and every
non-negative integer `count` and non-negative `price`, `apply count
price` returns `(floor(count/quantity) * discountedQuantity +
(count mod quantity)) * price`; when the quantity is a positive integer
`n` this is the exact natural-number multi-buy accounting
`(count / n * discountedQuantity + count % n) * price`. -/
theorem discount_apply_spec (s : String) (d : RuleDefinition) (r : PricingRule)
    (q dq : ℚ)
    (hmk : mkPricingRule s "discount" d = Except.ok r)
    (hq : d.quantity = some (JsVal.num q))
    (hdq : d.discountedQuantity = some (JsVal.num dq))
    (count : ℕ) (price : ℚ) (hp : 0 ≤ price) :
    PricingRule.apply r (some (count : ℚ)) (some price) =
      jsMul (specBilledUnits q dq (some (count : ℚ))) (some price) ∧
    ∀ n : ℕ, q = (n : ℚ) → 0 < n →
      PricingRule.apply r (some (count : ℚ)) (some price) =
        some ((((count / n : ℕ) : ℚ) * dq + ((count % n : ℕ) : ℚ)) * price) := by
  obtain ⟨hr, hv⟩ := mk_ok_inv s "discount" d r hmk
  subst hr
  have happ : PricingRule.apply ⟨s, "discount", d⟩ (some (count : ℚ)) (some price)
      = jsMul (specBilledUnits q dq (some (count : ℚ))) (some price) := by
    simp [PricingRule.apply, applyDiscount, specBilledUnits, hq, hdq, asJsNum]
  refine ⟨happ, fun n hn hpos => ?_⟩
  rw [happ]
  unfold specBilledUnits
  rw [hn, jsDivFloor_nat count n hpos, jsRem_nat count n hpos]
  simp [jsMul, jsAdd]

/-- Witness for C2 at the spec's own example: quantity 3,
discountedQuantity 2, price 10, count 7, total 50. -/
theorem discount_apply_spec_witness :
    PricingRule.apply ⟨"A", "discount", ⟨some (JsVal.num 3), some (JsVal.num 2), none⟩⟩
        (some ((7 : ℕ) : ℚ)) (some 10) = some 50 :=
  Eq.trans
    ((discount_apply_spec "A" ⟨some (JsVal.num 3), some (JsVal.num 2), none⟩
        ⟨"A", "discount", ⟨some (JsVal.num 3), some (JsVal.num 2), none⟩⟩
        3 2 rfl rfl rfl 7 10 (by norm_num)).2 3 (by norm_num) (by norm_num))
    (by norm_num)

/-- C3: for every constructed rule of type `reducedPrice` and every
non-negative integer `count` and non-negative `price`, `apply count
price` returns `count * bulkPrice` when `count > quantity` and
`count * price` otherwise; in particular `count = quantity` does not
trigger the bulk price (the comparison is strictly greater-than). -/
theorem reducedPrice_apply_spec (s : String) (d : RuleDefinition) (r : PricingRule)
    (q b : ℚ)
    (hmk : mkPricingRule s "reducedPrice" d = Except.ok r)
    (hq : d.quantity = some (JsVal.num q))
    (hb : d.bulkPrice = some (JsVal.num b))
    (count : ℕ) (price : ℚ) (hp : 0 ≤ price) :
    ((q < (count : ℚ) →
        PricingRule.apply r (some (count : ℚ)) (some price) = some ((count : ℚ) * b)) ∧
     ((count : ℚ) ≤ q →
        PricingRule.apply r (some (count : ℚ)) (some price) = some ((count : ℚ) * price))) ∧
    ((count : ℚ) = q →
        PricingRule.apply r (some (count : ℚ)) (some price) = some ((count : ℚ) * price)) := by
  obtain ⟨hr, hv⟩ := mk_ok_inv s "reducedPrice" d r hmk
  subst hr
  have hgt : ∀ h : q < (count : ℚ),
      PricingRule.apply ⟨s, "reducedPrice", d⟩ (some (count : ℚ)) (some price)
        = some ((count : ℚ) * b) := fun h => by
    simp [PricingRule.apply, applyReducedPrice, hq, hb, asJsNum, jsGt, jsMul, h]
  have hle : ∀ h : (count : ℚ) ≤ q,
      PricingRule.apply ⟨s, "reducedPrice", d⟩ (some (count : ℚ)) (some price)
        = some ((count : ℚ) * price) := fun h => by
    simp [PricingRule.apply, applyReducedPrice, hq, hb, asJsNum, jsGt, jsMul, not_lt.mpr h]
  exact ⟨⟨hgt, hle⟩, fun h => hle h.le⟩

/-- Witness for C3 at the spec's own example: quantity 5, bulkPrice 8,
price 10, count 6, total 48 (bulk price applied to all six units). -/
theorem reducedPrice_apply_spec_witness :
    PricingRule.apply ⟨"A", "reducedPrice", ⟨some (JsVal.num 5), none, some (JsVal.num 8)⟩⟩
        (some ((6 : ℕ) : ℚ)) (some 10) = some 48 :=
  Eq.trans
    ((reducedPrice_apply_spec "A" ⟨some (JsVal.num 5), none, some (JsVal.num 8)⟩
        ⟨"A", "reducedPrice", ⟨some (JsVal.num 5), none, some (JsVal.num 8)⟩⟩
        5 8 rfl rfl rfl 6 10 (by norm_num)).1.1 (by norm_num))
    (by norm_num)

/-- C10: for every constructed rule of type `both` and every non-negative
integer `count` and non-negative `price`, `apply count price` equals the
`reducedPrice` algorithm evaluated at the billed unit count
`floor(count/quantity) * discountedQuantity + (count mod quantity)`:
the `both` variant is exactly the bulk-price rule composed after the
discount rule's billing accounting. -/
theorem both_refines_reducedPrice (s : String) (d : RuleDefinition) (r : PricingRule)
    (q dq b : ℚ)
    (hmk : mkPricingRule s "both" d = Except.ok r)
    (hq : d.quantity = some (JsVal.num q))
    (hdq : d.discountedQuantity = some (JsVal.num dq))
    (hb : d.bulkPrice = some (JsVal.num b))
    (count : ℕ) (price : ℚ) (hp : 0 ≤ price) :
    PricingRule.apply r (some (count : ℚ)) (some price) =
      applyReducedPrice d (specBilledUnits q dq (some (count : ℚ))) (some price) := by
  obtain ⟨hr, hv⟩ := mk_ok_inv s "both" d r hmk
  subst hr
  simp [PricingRule.apply, applyBoth, applyReducedPrice, specBilledUnits,
    hq, hdq, hb, asJsNum]

/-- Witness for C10: quantity 3, discountedQuantity 2, bulkPrice 5,
count 10, price 10. -/
theorem both_refines_reducedPrice_witness :
    PricingRule.apply
        ⟨"B", "both", ⟨some (JsVal.num 3), some (JsVal.num 2), some (JsVal.num 5)⟩⟩
        (some ((10 : ℕ) : ℚ)) (some 10) =
      applyReducedPrice ⟨some (JsVal.num 3), some (JsVal.num 2), some (JsVal.num 5)⟩
        (specBilledUnits 3 2 (some ((10 : ℕ) : ℚ))) (some 10) :=
  both_refines_reducedPrice "B" ⟨some (JsVal.num 3), some (JsVal.num 2), some (JsVal.num 5)⟩
    ⟨"B", "both", ⟨some (JsVal.num 3), some (JsVal.num 2), some (JsVal.num 5)⟩⟩
    3 2 5 rfl rfl rfl rfl 10 10 (by norm_num)

/-- C4 counterexample: for the unrecognized type `"gift"` construction
fails with `Unknown rule type: gift`, a message that does not contain the
skuId `"A"` (nor any expected field names), so the claim that every
failure message identifies the skuId and the expected fields is false. -/
theorem mk_unknown_type_message_counterexample :
    mkPricingRule "A" "gift" ⟨some (JsVal.num 1), some (JsVal.num 1), some (JsVal.num 1)⟩
      = Except.error "Unknown rule type: gift" ∧
    ¬ ∃ pre post : String, "Unknown rule type: gift" = pre ++ "A" ++ post := by
  refine ⟨rfl, ?_⟩
  rintro ⟨pre, post, h⟩
  have h1 : 'A' ∈ "A".data := by decide
  have hmem : 'A' ∈ (pre ++ "A" ++ post).data := by
    rw [String.data_append, String.data_append]
    exact List.mem_append_left _ (List.mem_append_right _ h1)
  rw [← h] at hmem
  exact absurd hmem (by decide)

/-- C4 amended: construction succeeds iff the type is one of the three
recognized variants and each field required for that type is present and
numeric (hence success is unaffected by extra or irrelevant fields); when
construction fails for one of the three recognized types, the error
message names the skuId and the expected fields; when it fails for an
unrecognized type, the message names only the offending type. -/
theorem mk_characterization (s ty : String) (d : RuleDefinition) :
    ((∃ r, mkPricingRule s ty d = Except.ok r) ↔
      ((ty = "discount" ∧ isNumber d.quantity = true ∧ isNumber d.discountedQuantity = true) ∨
       (ty = "reducedPrice" ∧ isNumber d.quantity = true ∧ isNumber d.bulkPrice = true) ∨
       (ty = "both" ∧ isNumber d.quantity = true ∧ isNumber d.discountedQuantity = true ∧
          isNumber d.bulkPrice = true))) ∧
    (∀ e, mkPricingRule s ty d = Except.error e →
      (ty = "discount" → e = "Invalid definition for discount rule on SKU " ++ s ++
          ". Expected \"quantity\" and \"discountedQuantity\" to be numbers.") ∧
      (ty = "reducedPrice" → e = "Invalid definition for reduced price rule on SKU " ++ s ++
          ". Expected \"quantity\" and \"bulkPrice\" to be numbers.") ∧
      (ty = "both" → e = "Invalid definition for combined rule on SKU " ++ s ++
          ". Expected \"quantity\", \"discountedQuantity\", and \"bulkPrice\" to be numbers.") ∧
      (ty ≠ "discount" → ty ≠ "reducedPrice" → ty ≠ "both" →
          e = "Unknown rule type: " ++ ty)) := by
  refine ⟨?_, fun e he => validate_error_msg s ty d e (mk_error_inv s ty d e he)⟩
  rw [mk_exists_ok_iff, validate_ok_iff, requiredFieldsNumeric_iff]

/-- Witness for C4: a discount rule with both required fields missing is
rejected with the message built from the skuId and the two expected field
names. -/
theorem mk_characterization_witness :
    ("Invalid definition for discount rule on SKU A. Expected \"quantity\" and \"discountedQuantity\" to be numbers."
      : String) =
      "Invalid definition for discount rule on SKU " ++ "A" ++
        ". Expected \"quantity\" and \"discountedQuantity\" to be numbers." :=
  ((mk_characterization "A" "discount" ⟨none, none, none⟩).2
      "Invalid definition for discount rule on SKU A. Expected \"quantity\" and \"discountedQuantity\" to be numbers."
      rfl).1 rfl

/-- C6 counterexample: discount-rule constructions whose `quantity` is 0,
negative, or fractional all succeed, because validation only checks that
the fields are numbers; this refutes the claim that a quantity that is
not an integer ≥ 1 is rejected. -/
theorem discount_quantity_zero_accepted :
    (∃ r, mkPricingRule "A" "discount"
        ⟨some (JsVal.num 0), some (JsVal.num 0), none⟩ = Except.ok r) ∧
    (∃ r, mkPricingRule "A" "discount"
        ⟨some (JsVal.num (-3)), some (JsVal.num 2), none⟩ = Except.ok r) ∧
    (∃ r, mkPricingRule "A" "discount"
        ⟨some (JsVal.num (1/2)), some (JsVal.num 2), none⟩ = Except.ok r) :=
  ⟨⟨⟨"A", "discount", ⟨some (JsVal.num 0), some (JsVal.num 0), none⟩⟩, rfl⟩,
   ⟨⟨"A", "discount", ⟨some (JsVal.num (-3)), some (JsVal.num 2), none⟩⟩, rfl⟩,
   ⟨⟨"A", "discount", ⟨some (JsVal.num (1/2)), some (JsVal.num 2), none⟩⟩, rfl⟩⟩

/-- C6 amended: construction of a `discount` rule succeeds iff `quantity`
and `discountedQuantity` are present and of numeric type; no integrality
check and no lower bound (such as quantity ≥ 1) is enforced. -/
theorem discount_validation_numeric_only (s : String) (d : RuleDefinition) :
    (∃ r, mkPricingRule s "discount" d = Except.ok r) ↔
      (isNumber d.quantity = true ∧ isNumber d.discountedQuantity = true) := by
  rw [mk_exists_ok_iff, validate_ok_iff]
  unfold requiredFieldsNumeric
  simp

/-- C5: on every successfully constructed rule, `apply` never raises an
error: reading every field dereference as a checked assertion
(`applyChecked`) yields exactly the unchecked computation's result, i.e.
every field a variant dereferences (in particular every division or
modulus operand) was validated to exist at construction. -/
theorem apply_never_errors (s ty : String) (d : RuleDefinition) (r : PricingRule)
    (hmk : mkPricingRule s ty d = Except.ok r) (count price : JsNum) :
    applyChecked r count price = Except.ok (PricingRule.apply r count price) := by
  obtain ⟨hr, hfields⟩ := mk_ok_fields s ty d r hmk
  subst hr
  rcases (requiredFieldsNumeric_iff ty d).mp hfields with
    ⟨hty, hq, hdq⟩ | ⟨hty, hq, hb⟩ | ⟨hty, hq, hdq, hb⟩
  · subst hty
    obtain ⟨qv, hqe, _⟩ := asJsNum_eq_some d.quantity hq
    obtain ⟨dqv, hdqe, _⟩ := asJsNum_eq_some d.discountedQuantity hdq
    simp [applyChecked, applyDiscountChecked, requireNum, PricingRule.apply, applyDiscount,
      hqe, hdqe, asJsNum]
  · subst hty
    obtain ⟨qv, hqe, _⟩ := asJsNum_eq_some d.quantity hq
    obtain ⟨bv, hbe, _⟩ := asJsNum_eq_some d.bulkPrice hb
    by_cases hgt : jsGt count (some qv) = true <;>
      simp [applyChecked, applyReducedPriceChecked, requireNum, PricingRule.apply,
        applyReducedPrice, hqe, hbe, asJsNum, hgt]
  · subst hty
    obtain ⟨qv, hqe, _⟩ := asJsNum_eq_some d.quantity hq
    obtain ⟨dqv, hdqe, _⟩ := asJsNum_eq_some d.discountedQuantity hdq
    obtain ⟨bv, hbe, _⟩ := asJsNum_eq_some d.bulkPrice hb
    by_cases hgt : jsGt (jsAdd (jsMul (jsFloor (jsDiv count (some qv))) (some dqv))
        (jsRem count (some qv))) (some qv) = true <;>
      simp [applyChecked, applyBothChecked, requireNum, PricingRule.apply, applyBoth,
        hqe, hdqe, hbe, asJsNum, hgt]

/-- Witness for C5: a concrete discount rule, count 7, price 10. -/
theorem apply_never_errors_witness :
    applyChecked ⟨"A", "discount", ⟨some (JsVal.num 3), some (JsVal.num 2), none⟩⟩
        (some 7) (some 10) =
      Except.ok (PricingRule.apply
        ⟨"A", "discount", ⟨some (JsVal.num 3), some (JsVal.num 2), none⟩⟩
        (some 7) (some 10)) :=
  apply_never_errors "A" "discount" ⟨some (JsVal.num 3), some (JsVal.num 2), none⟩
    ⟨"A", "discount", ⟨some (JsVal.num 3), some (JsVal.num 2), none⟩⟩
    rfl (some 7) (some 10)

/-- C7 counterexample: the `discount` rule with quantity 0 is accepted by
construction, yet `apply 0 1` is the non-finite `NaN` value (`0 / 0` and
`0 % 0` are `NaN`), not 0; so `apply(0, price) = 0` does not hold for
every constructed rule. -/
theorem apply_zero_nan_counterexample :
    mkPricingRule "Z" "discount" ⟨some (JsVal.num 0), some (JsVal.num 0), none⟩
      = Except.ok ⟨"Z", "discount", ⟨some (JsVal.num 0), some (JsVal.num 0), none⟩⟩ ∧
    PricingRule.apply ⟨"Z", "discount", ⟨some (JsVal.num 0), some (JsVal.num 0), none⟩⟩
        (some 0) (some 1) = none ∧
    (none : JsNum) ≠ some (0 : ℚ) := by
  refine ⟨rfl, rfl, by simp⟩

/-- C7 amended: `apply 0 price = 0` holds for every constructed
`reducedPrice` rule, and for every constructed `discount` or `both` rule
whose quantity is a nonzero number (a zero quantity instead yields the
non-finite `NaN` result). -/
theorem apply_zero_eq_zero (s ty : String) (d : RuleDefinition) (r : PricingRule)
    (hmk : mkPricingRule s ty d = Except.ok r) (price : ℚ) (hp : 0 ≤ price) :
    (ty = "reducedPrice" → PricingRule.apply r (some 0) (some price) = some 0) ∧
    ((ty = "discount" ∨ ty = "both") →
      ∀ q : ℚ, d.quantity = some (JsVal.num q) → q ≠ 0 →
        PricingRule.apply r (some 0) (some price) = some 0) := by
  obtain ⟨hr, hfields⟩ := mk_ok_fields s ty d r hmk
  subst hr
  constructor
  · intro hty; subst hty
    simp [requiredFieldsNumeric] at hfields
    obtain ⟨qv, hqe, _⟩ := asJsNum_eq_some d.quantity hfields.1
    obtain ⟨bv, hbe, _⟩ := asJsNum_eq_some d.bulkPrice hfields.2
    by_cases hneg : qv < 0 <;>
      simp [PricingRule.apply, applyReducedPrice, hqe, hbe, asJsNum, jsGt, jsMul, hneg]
  · intro hty q hqe hq0
    rcases hty with hty | hty
    · subst hty
      simp [requiredFieldsNumeric] at hfields
      obtain ⟨dqv, hdqe, _⟩ := asJsNum_eq_some d.discountedQuantity hfields.2
      simp [PricingRule.apply, applyDiscount, hqe, hdqe, asJsNum, jsDiv, jsRem, jsFloor,
        jsMul, jsAdd, jsTrunc, hq0]
    · subst hty
      simp [requiredFieldsNumeric] at hfields
      obtain ⟨dqv, hdqe, _⟩ := asJsNum_eq_some d.discountedQuantity hfields.1.2
      obtain ⟨bv, hbe, _⟩ := asJsNum_eq_some d.bulkPrice hfields.2
      by_cases hneg : q < 0 <;>
        simp [PricingRule.apply, applyBoth, hqe, hdqe, hbe, asJsNum, jsDiv, jsRem, jsFloor,
          jsMul, jsAdd, jsGt, jsTrunc, hq0, hneg]

/-- Witness for C7 (amended): a discount rule with quantity 3 bills 0 at
count 0. -/
theorem apply_zero_eq_zero_witness :
    PricingRule.apply ⟨"A", "discount", ⟨some (JsVal.num 3), some (JsVal.num 2), none⟩⟩
        (some 0) (some 10) = some 0 :=
  (apply_zero_eq_zero "A" "discount" ⟨some (JsVal.num 3), some (JsVal.num 2), none⟩
      ⟨"A", "discount", ⟨some (JsVal.num 3), some (JsVal.num 2), none⟩⟩
      rfl 10 (by norm_num)).2 (Or.inl rfl) 3 rfl (by norm_num)

/-- C8: a constructed instance carries exactly the validated data — its
`skuId`, `type` and `definition` are the constructor arguments, unchanged
(the pure model has no mutating operation), and it satisfies the validity
invariant: the fields required for its declared type are present and
numeric; no other instance is ever produced, so no partially-valid
instance exists. -/
theorem constructed_rule_valid (s ty : String) (d : RuleDefinition) (r : PricingRule)
    (hmk : mkPricingRule s ty d = Except.ok r) :
    r.skuId = s ∧ r.type = ty ∧ r.definition = d ∧
    requiredFieldsNumeric r.type r.definition = true := by
  obtain ⟨hr, hfields⟩ := mk_ok_fields s ty d r hmk
  subst hr
  exact ⟨rfl, rfl, rfl, hfields⟩

/-- Witness for C8 on a concrete discount rule. -/
theorem constructed_rule_valid_witness :
    requiredFieldsNumeric "discount" ⟨some (JsVal.num 3), some (JsVal.num 2), none⟩ = true :=
  (constructed_rule_valid "A" "discount" ⟨some (JsVal.num 3), some (JsVal.num 2), none⟩
      ⟨"A", "discount", ⟨some (JsVal.num 3), some (JsVal.num 2), none⟩⟩ rfl).2.2.2

/-- C9: `apply` is a pure deterministic function of `(count, price)` and
the instance's fixed `type` and `definition`: any two instances agreeing
on those fields (regardless of identity or skuId) give identical results,
so repeated calls with identical arguments always return the identical
result and no hidden state can drift between calls. -/
theorem apply_deterministic (r1 r2 : PricingRule) (count price : JsNum)
    (hty : r1.type = r2.type) (hd : r1.definition = r2.definition) :
    PricingRule.apply r1 count price = PricingRule.apply r2 count price := by
  unfold PricingRule.apply
  rw [hty, hd]

/-- Witness for C9: two instances differing only in skuId agree. -/
theorem apply_deterministic_witness :
    PricingRule.apply ⟨"A", "discount", ⟨some (JsVal.num 3), some (JsVal.num 2), none⟩⟩
        (some 7) (some 10) =
      PricingRule.apply ⟨"B", "discount", ⟨some (JsVal.num 3), some (JsVal.num 2), none⟩⟩
        (some 7) (some 10) :=
  apply_deterministic ⟨"A", "discount", ⟨some (JsVal.num 3), some (JsVal.num 2), none⟩⟩
    ⟨"B", "discount", ⟨some (JsVal.num 3), some (JsVal.num 2), none⟩⟩
    (some 7) (some 10) rfl rfl

end PricingBff
